import Mathlib

/-!
Verification of the beat scheduler in `metronome.py`.

Modelling conventions:
* All timestamps and durations are rationals (ℚ), in milliseconds, matching the
  program's use of `time.time_ns() / 1000000` (`_get_time_ms`, lines 65-72).
  Real-valued arithmetic of the source is embedded exactly over ℚ.
* The clock is monotone and external: each iteration of the scheduling loop is
  parameterised by the (nonnegative) amounts of time its individual operations
  consume, supplied as an `EnvStep` record.
* Fallible operations are embedded with `Except`: Python's `time.sleep` raises
  `ValueError` on a negative argument, and `total / len(_differences)` raises
  `ZeroDivisionError` when the list is empty.
-/

/-- MILLISECOND constant, line 15 of metronome.py: `MILLISECOND = .001`. -/
def MILLISECOND : ℚ := 1 / 1000

/-- MIN_BPM constant, line 13 of metronome.py. -/
def MIN_BPM : ℤ := 30

/-- MAX_BPM constant, line 14 of metronome.py. -/
def MAX_BPM : ℤ := 300

/-- Beat period derivation, line 39 of metronome.py:
`self.beat_length_ms = (60.0 / float(bpm)) / MILLISECOND`. -/
def beat_length_ms (bpm : ℚ) : ℚ := (60 / bpm) / MILLISECOND

/-- Python's built-in `abs` on numbers. -/
def pyAbs (x : ℚ) : ℚ := if x < 0 then -x else x

/-- Consecutive differences of the tick record, lines 83-88 of metronome.py:
`for index, tick in enumerate(self.ticks[:-1]): _differences.append(abs(self.ticks[index + 1] - tick))`.
Iterating over `ticks[:-1]` paired with the successor element yields exactly the
differences of adjacent elements. -/
def consecutiveDiffs : List ℚ → List ℚ
  | a :: b :: rest => pyAbs (b - a) :: consecutiveDiffs (b :: rest)
  | _ => []

/-- Accumulation loop of lines 97-104 of metronome.py: running total of
`abs(difference - beat_length_ms)` and running maximum of the same, both
starting from 0. -/
def statsFold (beat : ℚ) (ds : List ℚ) : ℚ × ℚ :=
  ds.foldl
    (fun acc d =>
      let deviation := pyAbs (d - beat)
      (acc.1 + deviation, if deviation > acc.2 then deviation else acc.2))
    (0, 0)

/-- Fault raised by the statistics block: Python's `ZeroDivisionError`. -/
inductive StatsFault where
  | divisionByZero
deriving DecidableEq

/-- Statistics computation of `ClickTrack._print_statistics`, lines 80-109 of
metronome.py, as run when DEBUG is enabled: build consecutive differences,
drop the first one (`_differences = _differences[1:]`, line 92), accumulate
total and maximum deviation, then evaluate `total / len(_differences)`
(line 107), which raises `ZeroDivisionError` when the list is empty.
Returns (average deviation, maximum deviation). -/
def computeStatistics (ticks : List ℚ) (beat : ℚ) : Except StatsFault (ℚ × ℚ) :=
  let ds := (consecutiveDiffs ticks).drop 1
  let acc := statsFold beat ds
  if ds.length = 0 then Except.error StatsFault.divisionByZero
  else Except.ok (acc.1 / (ds.length : ℚ), acc.2)

/-- C3: for every bpm in [MIN_BPM, MAX_BPM], the derived beat period
`(60 / bpm) / MILLISECOND` equals 60000 / bpm milliseconds exactly; in
particular bpm = 120 gives 500 ms, bpm = 60 gives 1000 ms and bpm = 300
gives 200 ms. -/
theorem beat_period_exact (bpm : ℤ) (h1 : MIN_BPM ≤ bpm) (h2 : bpm ≤ MAX_BPM) :
    beat_length_ms (bpm : ℚ) = 60000 / (bpm : ℚ) ∧
    beat_length_ms 120 = 500 ∧ beat_length_ms 60 = 1000 ∧ beat_length_ms 300 = 200 := by
  have hb : (bpm : ℚ) ≠ 0 := by
    have : (0 : ℤ) < bpm := by
      have h30 : (30 : ℤ) ≤ bpm := h1
      omega
    exact_mod_cast this.ne'
  refine ⟨?_, by norm_num [beat_length_ms, MILLISECOND], by norm_num [beat_length_ms, MILLISECOND],
    by norm_num [beat_length_ms, MILLISECOND]⟩
  rw [beat_length_ms, MILLISECOND]
  field_simp
  norm_num

/-- Witness for beat_period_exact at bpm = 120. -/
theorem beat_period_exact_witness :
    MIN_BPM ≤ (120 : ℤ) ∧ (120 : ℤ) ≤ MAX_BPM ∧
    (beat_length_ms ((120 : ℤ) : ℚ) = 60000 / ((120 : ℤ) : ℚ) ∧
      beat_length_ms 120 = 500 ∧ beat_length_ms 60 = 1000 ∧ beat_length_ms 300 = 200) :=
  ⟨by decide, by decide, beat_period_exact 120 (by decide) (by decide)⟩

/-- C5: the statistics computation on a tick record of 0 or 1 timestamps does
not yield an empty summary — it reaches `total / len(_differences)` with an
empty difference list and raises ZeroDivisionError. -/
theorem degenerate_statistics_division_fault :
    computeStatistics [] 500 = Except.error StatsFault.divisionByZero ∧
    computeStatistics [1000] 500 = Except.error StatsFault.divisionByZero ∧
    computeStatistics [1000, 1500] 500 = Except.error StatsFault.divisionByZero := by
  refine ⟨rfl, rfl, rfl⟩

/-- C8 counterexample: on tick timestamps [0, 500, 1003, 1500] with
beat_period 500 the code's statistics are not (mean 3/2, max 3) as the claim
states. -/
theorem statistics_example_mean_not_three_halves :
    computeStatistics [0, 500, 1003, 1500] 500 ≠ Except.ok ((3 / 2 : ℚ), 3) := by
  norm_num [computeStatistics, consecutiveDiffs, statsFold, pyAbs]

/-- C8 amended: on [0, 500, 1000, 1500] with beat_period 500 and
first-difference exclusion the mean and maximum deviation are both 0; on
[0, 500, 1003, 1500] the deviations after exclusion are [3, 3], so the mean
is 3 and the maximum is 3. -/
theorem statistics_worked_examples :
    computeStatistics [0, 500, 1000, 1500] 500 = Except.ok ((0 : ℚ), 0) ∧
    computeStatistics [0, 500, 1003, 1500] 500 = Except.ok ((3 : ℚ), 3) := by
  constructor <;> norm_num [computeStatistics, consecutiveDiffs, statsFold, pyAbs]

/-- State of the scheduling loop in `ClickTrack.run`, lines 144-173 of
metronome.py: the current clock reading, the absolute deadline `tick_next`,
and the tick record `self.ticks`. -/
structure SchedState where
  now : ℚ
  tickNext : ℚ
  ticks : List ℚ
deriving DecidableEq

/-- Durations consumed by the individual operations of one loop iteration,
supplied by the environment (all in milliseconds, all nonnegative in any real
execution): `eps` is how far past the deadline the busy-poll's exiting clock
read lands, `d1` the delay between that read and the fire-time read at line
121, `play` the time taken by `winsound.PlaySound` up to the second clock
read at line 125, `d2` the delay up to the clock read inside the sleep
expression at line 170, and `over` how much `time.sleep` oversleeps. -/
structure EnvStep where
  eps : ℚ
  d1 : ℚ
  play : ℚ
  d2 : ℚ
  over : ℚ
deriving DecidableEq

/-- Cushion constant, line 150 of metronome.py: `cushion = 10 * MILLISECOND`.
Since MILLISECOND = 0.001 and every timestamp it is compared against is in
milliseconds, its value is 0.01 millisecond. -/
def cushion : ℚ := 10 * MILLISECOND

/-- The clock value at which the busy-poll of lines 161-162
(`while self._get_time_ms() < tick_next: pass`) exits: if the current time is
already at or past the deadline the first read exits immediately, otherwise
the exiting read is the first one at or past the deadline, `eps` past it. -/
def busyWaitExit (now deadline eps : ℚ) : ℚ :=
  if now < deadline then deadline + eps else now

/-- The fire timestamp captured by `ClickTrack._tick` at line 121
(`time_ms = self._get_time_ms()`), the first clock read after the busy-poll
exits; `_tick` returns this value (line 127). -/
def fireTime (s : SchedState) (e : EnvStep) : ℚ :=
  busyWaitExit s.now s.tickNext e.eps + e.d1

/-- One pass through lines 161-167 of metronome.py: busy-poll to the deadline,
fire the tick (`ClickTrack._tick`, lines 111-127: capture `time_ms`, play the
sound, then read the clock again and pass that second reading to
`_handle_externals`, which appends it to `self.ticks` when DEBUG is on,
lines 52-63), and set `tick_next = tick_current + self.beat_length_ms`
(line 167) from the returned capture. -/
def tickPhase (beatLen : ℚ) (debug : Bool) (s : SchedState) (e : EnvStep) : SchedState :=
  let t := fireTime s e
  let r := t + e.play
  { now := r
    tickNext := t + beatLen
    ticks := if debug then s.ticks ++ [r] else s.ticks }

/-- Fault raised by the coarse sleep: Python's `time.sleep` raises
`ValueError` when its argument is negative. -/
inductive SleepFault where
  | negativeDuration
deriving DecidableEq

/-- The argument passed to `time.sleep` at lines 169-171 of metronome.py:
`(tick_next - cushion - self._get_time_ms()) * MILLISECOND`, in seconds. -/
def sleepArgSeconds (s : SchedState) (e : EnvStep) : ℚ :=
  (s.tickNext - cushion - (s.now + e.d2)) * MILLISECOND

/-- The coarse sleep call of lines 169-171 of metronome.py. It is issued
unconditionally; a negative argument raises ValueError. A nonnegative sleep
of x seconds advances the clock by x / MILLISECOND milliseconds plus the
oversleep `e.over`. -/
def sleepPhase (s : SchedState) (e : EnvStep) : Except SleepFault SchedState :=
  if sleepArgSeconds s e < 0 then Except.error SleepFault.negativeDuration
  else Except.ok { s with now := (s.now + e.d2) + sleepArgSeconds s e / MILLISECOND + e.over }

/-- One full iteration of the `while not self.do_stop` body, lines 152-171 of
metronome.py: busy-poll, tick, reschedule, coarse sleep. -/
def iterate (beatLen : ℚ) (debug : Bool) (s : SchedState) (e : EnvStep) :
    Except SleepFault SchedState :=
  sleepPhase (tickPhase beatLen debug s e) e

/-- Initial value of `tick_next`, line 147 of metronome.py: `tick_next = 0`. -/
def initialTickNext : ℚ := 0

/-- C1: for every iteration of the scheduling loop, the next absolute deadline
set at line 167 equals that iteration's captured fire time plus the beat
period; consequently two iterations whose actual fire times agree produce the
same next deadline no matter how different their previous deadlines were —
one beat's timing error does not compound into the next. -/
theorem next_deadline_from_fire_time (beatLen : ℚ) (debug debug2 : Bool)
    (s s2 : SchedState) (e e2 : EnvStep)
    (hfire : fireTime s e = fireTime s2 e2) :
    (tickPhase beatLen debug s e).tickNext = fireTime s e + beatLen ∧
    (tickPhase beatLen debug s e).tickNext = (tickPhase beatLen debug2 s2 e2).tickNext := by
  constructor
  · rfl
  · show fireTime s e + beatLen = fireTime s2 e2 + beatLen
    rw [hfire]

/-- Witness for next_deadline_from_fire_time: two iterations that both fire at
time 1000 but whose previous deadlines were 400 and 900 respectively agree on
the next deadline 1500. -/
theorem next_deadline_from_fire_time_witness :
    fireTime ⟨1000, 400, []⟩ ⟨0, 0, 0, 0, 0⟩ = fireTime ⟨1000, 900, []⟩ ⟨0, 0, 0, 0, 0⟩ ∧
    ((tickPhase 500 false ⟨1000, 400, []⟩ ⟨0, 0, 0, 0, 0⟩).tickNext =
        fireTime ⟨1000, 400, []⟩ ⟨0, 0, 0, 0, 0⟩ + 500 ∧
      (tickPhase 500 false ⟨1000, 400, []⟩ ⟨0, 0, 0, 0, 0⟩).tickNext =
        (tickPhase 500 true ⟨1000, 900, []⟩ ⟨0, 0, 0, 0, 0⟩).tickNext) :=
  ⟨by norm_num [fireTime, busyWaitExit],
    next_deadline_from_fire_time 500 false true ⟨1000, 400, []⟩ ⟨1000, 900, []⟩
      ⟨0, 0, 0, 0, 0⟩ ⟨0, 0, 0, 0, 0⟩ (by norm_num [fireTime, busyWaitExit])⟩

/-- C2: the loop calls `time.sleep` unconditionally, so when the callback
consumes a whole beat period (here 500 ms of PlaySound time at bpm 120) the
computed sleep argument is negative and the sleep call faults instead of
being skipped. -/
theorem unconditional_sleep_negative :
    sleepArgSeconds (tickPhase 500 false ⟨0, 0, []⟩ ⟨0, 0, 500, 0, 0⟩) ⟨0, 0, 500, 0, 0⟩ < 0 ∧
    iterate 500 false ⟨0, 0, []⟩ ⟨0, 0, 500, 0, 0⟩ = Except.error SleepFault.negativeDuration := by
  constructor
  · norm_num [sleepArgSeconds, tickPhase, fireTime, busyWaitExit, cushion, MILLISECOND]
  · norm_num [iterate, sleepPhase, sleepArgSeconds, tickPhase, fireTime, busyWaitExit,
      cushion, MILLISECOND]

/-- C6: the cushion the code actually subtracts before the coarse sleep is
`10 * MILLISECOND` = 1/100 of a millisecond on a clock expressed in
milliseconds, far below the claimed 10-15 milliseconds. -/
theorem cushion_value : cushion = 1 / 100 ∧ cushion < 10 := by
  norm_num [cushion, MILLISECOND]

/-- C9 counterexample: with diagnostics on, a tick fired at time 1000 whose
sound playback takes 50 ms appends 1050 to the tick record, while the captured
fire time used as the deadline base is 1000 — the recorded timestamp and the
deadline base are different clock reads. -/
theorem recorded_timestamp_differs_from_deadline_base :
    (tickPhase 500 true ⟨1000, 0, []⟩ ⟨0, 0, 50, 0, 0⟩).ticks = [1050] ∧
    fireTime ⟨1000, 0, []⟩ ⟨0, 0, 50, 0, 0⟩ = 1000 ∧
    (tickPhase 500 true ⟨1000, 0, []⟩ ⟨0, 0, 50, 0, 0⟩).tickNext = 1000 + 500 ∧
    (1050 : ℚ) ≠ 1000 := by
  refine ⟨?_, ?_, ?_, by norm_num⟩ <;>
    norm_num [tickPhase, fireTime, busyWaitExit]

/-- C9 amended: each tick captures a fire timestamp and uses it as the deadline
base (next deadline = fire time + beat period), but the value appended to the
tick record when diagnostics are enabled is a second, later clock read taken
after the audio call — the fire time plus the playback duration; with
diagnostics off nothing is appended. -/
theorem recorded_timestamp_is_second_read (beatLen : ℚ) (s : SchedState) (e : EnvStep) :
    (tickPhase beatLen true s e).ticks = s.ticks ++ [fireTime s e + e.play] ∧
    (tickPhase beatLen true s e).tickNext = fireTime s e + beatLen ∧
    (tickPhase beatLen false s e).ticks = s.ticks := by
  refine ⟨rfl, rfl, rfl⟩

/-- C10: at loop entry `tick_next` is 0, so for any nonnegative start time the
busy-poll condition is already false: the first clock read exits the poll at
once, the first tick fires at the start time (plus only the read gap d1) with
no beat-period wait, and regular spacing starts from that first fire time. -/
theorem first_tick_fires_immediately (beatLen : ℚ) (debug : Bool) (now0 : ℚ)
    (e : EnvStep) (h : 0 ≤ now0) :
    busyWaitExit now0 initialTickNext e.eps = now0 ∧
    fireTime ⟨now0, initialTickNext, []⟩ e = now0 + e.d1 ∧
    (tickPhase beatLen debug ⟨now0, initialTickNext, []⟩ e).tickNext = (now0 + e.d1) + beatLen := by
  have hcond : ¬ now0 < initialTickNext := by
    rw [initialTickNext]
    exact not_lt.mpr h
  have hw : busyWaitExit now0 initialTickNext e.eps = now0 := by
    rw [busyWaitExit, if_neg hcond]
  refine ⟨hw, ?_, ?_⟩
  · show busyWaitExit now0 initialTickNext e.eps + e.d1 = now0 + e.d1
    rw [hw]
  · show fireTime ⟨now0, initialTickNext, []⟩ e + beatLen = (now0 + e.d1) + beatLen
    show busyWaitExit now0 initialTickNext e.eps + e.d1 + beatLen = (now0 + e.d1) + beatLen
    rw [hw]

/-- Witness for first_tick_fires_immediately at start time 7. -/
theorem first_tick_fires_immediately_witness :
    (0 : ℚ) ≤ 7 ∧
    (busyWaitExit 7 initialTickNext (0 : ℚ) = 7 ∧
      fireTime ⟨7, initialTickNext, []⟩ ⟨0, 0, 0, 0, 0⟩ = 7 + 0 ∧
      (tickPhase 500 false ⟨7, initialTickNext, []⟩ ⟨0, 0, 0, 0, 0⟩).tickNext = (7 + 0) + 500) :=
  ⟨by norm_num, first_tick_fires_immediately 500 false 7 ⟨0, 0, 0, 0, 0⟩ (by norm_num)⟩

/-- The cooperative stop flag `self.do_stop`: written once by `main`
(line 188, `click_track.do_stop = True`) and never cleared, so the values the
loop's check at line 152 observes are false before some check index and true
from that index on. `flagFrom k` is the flag that first reads true at the
k-th check, i.e. the flag was set while iteration k-1 was in flight. -/
def flagFrom (k : ℕ) : ℕ → Bool := fun j => decide (k ≤ j)

/-- The scheduling loop of lines 152-171 of metronome.py, with an explicit
fuel bound on the number of iterations modelled: at the top of each cycle the
stop flag for check index i is read (`while not self.do_stop`); if it is
false the loop body runs one `iterate` and continues. Returns the number of
callback invocations (ticks fired) together with the final state, or the
fault if a sleep call raised; a raising sleep still follows the tick of its
own iteration, so that iteration's tick is counted. -/
def runLoop (beatLen : ℚ) (debug : Bool) (stopFlag : ℕ → Bool) (env : ℕ → EnvStep) :
    ℕ → ℕ → SchedState → ℕ × Except SleepFault SchedState
  | 0, _, s => (0, Except.ok s)
  | fuel + 1, i, s =>
    if stopFlag i then (0, Except.ok s)
    else
      match iterate beatLen debug s (env i) with
      | Except.error f => (1, Except.error f)
      | Except.ok s2 =>
        let rest := runLoop beatLen debug stopFlag env fuel (i + 1) s2
        (rest.1 + 1, rest.2)

/-- With a stop flag first observed true at check index i + m, the loop
starting from check index i fires at most m more ticks. -/
theorem runLoop_flagFrom_count (beatLen : ℚ) (debug : Bool) (env : ℕ → EnvStep) :
    ∀ (fuel i m : ℕ) (s : SchedState),
      (runLoop beatLen debug (flagFrom (i + m)) env fuel i s).1 ≤ m := by
  intro fuel
  induction fuel with
  | zero => intro i m s; simp [runLoop]
  | succ fuel ih =>
    intro i m s
    match m with
    | 0 =>
      have hflag : flagFrom i i = true := by simp [flagFrom]
      rw [Nat.add_zero]
      simp [runLoop, hflag]
    | m' + 1 =>
      rw [runLoop]
      by_cases hflag : flagFrom (i + (m' + 1)) i = true
      · simp [hflag]
      · rw [Bool.not_eq_true] at hflag
        rw [hflag]
        simp only [Bool.false_eq_true, if_false]
        match hit : iterate beatLen debug s (env i) with
        | Except.error f => simp
        | Except.ok s2 =>
          have hshift : i + (m' + 1) = (i + 1) + m' := by omega
          have := ih (i + 1) m' s2
          rw [hshift]
          simpa using Nat.succ_le_succ this

/-- C7: if the stop flag is set while iteration k is in flight (so the checks
numbered 0 through k read false and check k + 1 is the first to read true),
the loop fires at most k + 1 ticks in total — i.e. at most the one tick of
the iteration already past its wait point happens after the flag is set, and
no callback invocation occurs after the flag is observed at the designated
check point; this holds for every fuel bound, so the loop exits rather than
ticking again. -/
theorem stop_fires_at_most_one_more_tick (beatLen : ℚ) (debug : Bool)
    (env : ℕ → EnvStep) (fuel k : ℕ) (s : SchedState) :
    (runLoop beatLen debug (flagFrom (k + 1)) env fuel 0 s).1 ≤ k + 1 := by
  have := runLoop_flagFrom_count beatLen debug env fuel 0 (k + 1) s
  rwa [Nat.zero_add] at this

/-- Outcome of processing one tempo argument in the `__main__` block of
metronome.py, lines 196-202: either the bounds check failed and a rejection
message was printed, or `main(_bpm)` ran a click track for it. -/
inductive TempoOutcome where
  | rejected (bpm : ℤ)
  | ran (bpm : ℤ)
deriving DecidableEq

/-- Fault raised while processing the tempo arguments: Python's `int()` raises
`ValueError` on a non-parsable string (line 198), and nothing catches it. -/
inductive BatchFault where
  | valueError
deriving DecidableEq

/-- Value of a decimal digit character, else none. -/
def digitVal (c : Char) : Option ℕ :=
  if c.isDigit then some (c.toNat - 48) else none

/-- Left-to-right accumulation of decimal digits; none as the accumulator
means no digit has been seen yet, and any non-digit character fails. -/
def digitsVal : List Char → Option ℕ → Option ℕ
  | [], acc => acc
  | c :: cs, acc =>
    match digitVal c, acc with
    | some d, some a => digitsVal cs (some (a * 10 + d))
    | some d, none => digitsVal cs (some d)
    | none, _ => none

/-- Python's built-in `int(str)` as used at line 198 of metronome.py on a
command-line argument: an optional sign followed by at least one decimal
digit parses to that integer; anything else raises ValueError (modelled as
none). -/
def parseInt (s : String) : Option ℤ :=
  match s.toList with
  | [] => none
  | c :: cs =>
    if c = Char.ofNat 45 then (digitsVal cs none).map (fun n => -(n : ℤ))
    else if c = Char.ofNat 43 then (digitsVal cs none).map (fun n => (n : ℤ))
    else (digitsVal (c :: cs) none).map (fun n => (n : ℤ))

/-- The tempo-argument loop of the `__main__` block, lines 196-202 of
metronome.py: for each argument, `_bpm = int(_tempo)` (an uncaught ValueError
aborts the whole batch), then either print the rejection message and continue
with the next argument, or run `main(_bpm)`. -/
def tempoBatch : List String → Except BatchFault (List TempoOutcome)
  | [] => Except.ok []
  | t :: ts =>
    match parseInt t with
    | none => Except.error BatchFault.valueError
    | some b =>
      if ¬ (MIN_BPM ≤ b ∧ b ≤ MAX_BPM) then
        (tempoBatch ts).map (fun evs => TempoOutcome.rejected b :: evs)
      else
        (tempoBatch ts).map (fun evs => TempoOutcome.ran b :: evs)

/-- C4 counterexample: a non-parsable tempo argument aborts the whole batch
with an uncaught ValueError — the in-range tempo 120 queued after "abc" never
runs, contradicting the claim that invalid tempos are skipped and are never
fatal to the run. -/
theorem nonparsable_tempo_aborts_batch :
    tempoBatch ["abc", "120"] = Except.error BatchFault.valueError := by
  rfl

/-- C4 amended: a tempo that parses but falls outside [30, 300] is rejected
with a printed message and skipped while the remaining tempos still run
(29 and 301 are rejected, 30 and 300 are accepted, in order); a non-parsable
tempo instead raises an uncaught ValueError that aborts the whole batch. -/
theorem tempo_bounds_and_skip :
    tempoBatch ["29", "30", "300", "301"] =
      Except.ok [TempoOutcome.rejected 29, TempoOutcome.ran 30,
        TempoOutcome.ran 300, TempoOutcome.rejected 301] ∧
    tempoBatch ["301", "abc"] = Except.error BatchFault.valueError := by
  refine ⟨rfl, rfl⟩
